import Mathlib

/-!
# Verification of the RAG chatbot's agentic tool-orchestration core

This file gives a shallow embedding of the tool-orchestration loop of
`backend/ai_generator.py` (class `AIGenerator`), of the Filter Builder and
the bounded Session History described in the specification, and proves the
specification's claims about them.

The language-model API, the JSON parser, the Python `eval` fallback and the
tool manager's `execute_tool` are external effects; they are modelled as
oracle functions collected in an `Env`/`ToolManager` record, universally
quantified in every theorem.  `Except String` models a Python call that can
raise an exception (`.error msg` carries `str(e)`).
-/

namespace RagChatbot

/-- One tool invocation requested by the model: `tool_call.id`,
`tool_call.function.name`, `tool_call.function.arguments` (a string). -/
structure ToolCall where
  id : String
  name : String
  arguments : String
  deriving Repr, DecidableEq, Inhabited

/-- The part of one API response the orchestrator inspects:
`response.choices[0].finish_reason`, `response.choices[0].message.content`
and `response.choices[0].message.tool_calls`.  A Python `None` or empty
tool-call list are both modelled as `[]` (both are falsy and never
iterated when empty). -/
structure ModelResponse where
  finish_reason : String
  content : String
  tool_calls : List ToolCall
  deriving Repr, DecidableEq, Inhabited

/-- One transcript message dictionary.  Absent dictionary keys are `none`. -/
structure Message where
  role : String
  content : String
  tool_call_id : Option String := none
  tool_calls : Option (List ToolCall) := none
  deriving Repr, DecidableEq, Inhabited

/-- Tool schemas are opaque payloads: `AIGenerator` only passes them through
to the API request, so their internal structure is irrelevant here. -/
abbrev ToolSchema := String

/-- The request parameters assembled by `_build_api_params` that vary per
round (the constant `base_params` — model name, temperature, max_tokens —
are omitted as they never change).  `tools`/`tool_choice` being `none`
models the dictionary key being absent. -/
structure ApiParams where
  messages : List Message
  tools : Option (List ToolSchema)
  tool_choice : Option String
  deriving Repr, DecidableEq, Inhabited

/-- Outcome of Python `json.loads` on an argument string: a parsed value, a
`json.JSONDecodeError`, or a `TypeError` (non-string input).  `V` is the
type of parsed Python values (opaque to the orchestrator, which only passes
them to `execute_tool` as keyword arguments). -/
inductive JsonResult (V : Type) where
  | ok (v : V)
  | decodeError
  | typeError
  deriving Repr, DecidableEq

/-- The tool manager as the orchestrator sees it: `execute_tool(name, **args)`
which may return a result string or raise. -/
structure ToolManager (V : Type) where
  executeTool : String → V → Except String String

/-- The external effects `AIGenerator` invokes: `json.loads`, the `eval`
fallback (which may itself raise), and the chat-completions API call
(which may raise a transport/model exception). -/
structure Env (V : Type) where
  jsonLoads : String → JsonResult V
  pyEval : String → Except String V
  api : ApiParams → Except String ModelResponse

/-- Python truthiness of an optional list (`None` and `[]` are falsy). -/
def pyTruthyList {α : Type} (o : Option (List α)) : Bool :=
  match o with
  | none => false
  | some l => !l.isEmpty

/-- Python truthiness of an optional string (`None` and `""` are falsy). -/
def pyTruthyStr (o : Option String) : Bool :=
  match o with
  | none => false
  | some s => !(s == "")

/-- The static system prompt (`AIGenerator.SYSTEM_PROMPT`, verbatim; the
claims depend only on where this constant is placed in the transcript,
never on its text). -/
def SYSTEM_PROMPT : String :=
  " You are an AI assistant specialized in course materials and educational content with access to comprehensive search tools for course information.

Available Tools:
1. **search_course_content** - Search for specific course content and materials
2. **get_course_outline** - Get course outline including title, link, and complete lesson list

Tool Usage Guidelines:
- **Use search_course_content** for questions about specific course content, concepts, or detailed educational materials
- **Use get_course_outline** for questions about course structure, lesson lists, or course overview information
- **Multiple tool use allowed** - Use up to 2 tool calls sequentially for complex queries
- **Each tool call is a separate interaction** - You can see tool results before deciding on additional calls
- **Use tools strategically** - Plan your tool usage to gather all necessary information efficiently
- Synthesize tool results into accurate, fact-based responses
- If tools yield no results, state this clearly without offering alternatives

Examples of Sequential Tool Usage:

Example 1: Comparing courses
- User: \"Find a course that covers similar topics to lesson 3 of course X\"
- Step 1: Use get_course_outline to find lesson 3 topic
- Step 2: Use search_course_content to find similar courses

Example 2: Comprehensive analysis
- User: \"What are the prerequisites for course X and what courses build on it?\"
- Step 1: Use get_course_outline for course X structure
- Step 2: Use search_course_content to find related/prerequisite courses

Example 3: Multi-lesson research
- User: \"Compare the teaching approaches in lesson 5 of course A and lesson 8 of course B\"
- Step 1: Use get_course_outline for course A
- Step 2: Use get_lesson_content for lesson 5
- Step 3: Use get_course_outline for course B
- Step 4: Use get_lesson_content for lesson 8

When to Use Multiple Tools:
- When you need information from multiple courses or lessons
- When you need to compare or contrast different materials
- When the first tool result suggests additional research is needed
- When answering complex questions that require comprehensive analysis

When to Stop After One Tool:
- When the single tool result fully answers the question
- When the question is simple and direct
- When additional tools would not provide more relevant information

Response Protocol:
- **General knowledge questions**: Answer using existing knowledge without using tools
- **Course content questions**: Use search_course_content tool first, then use additional tools if needed
- **Course outline/structure questions**: Use get_course_outline tool first, then use additional tools if needed
- **Complex multi-part questions**: Use multiple tools sequentially to gather comprehensive information
- **No meta-commentary**:
 - Provide direct answers only — no reasoning process, tool explanations, or question-type analysis
 - Do not mention \"based on the search results\" or \"based on the tool output\"

For course outline queries, ensure your response includes:
- Course title
- Course link
- Complete lesson list with lesson numbers and titles
- Instructor information if available

All responses must be:
1. **Brief, Concise and focused** - Get to the point quickly
2. **Educational** - Maintain instructional value
3. **Clear** - Use accessible language
4. **Example-supported** - Include relevant examples when they aid understanding
Provide only the direct answer to what was asked.
"

/-- Embeds `AIGenerator._build_initial_messages`: one system message (system prompt,
suffixed with the rendered history when that is truthy) and one user
message carrying the raw query. -/
def build_initial_messages (query : String) (conversation_history : Option String) :
    List Message :=
  let system_content :=
    if pyTruthyStr conversation_history then
      SYSTEM_PROMPT ++ "\n\nPrevious conversation:\n" ++ conversation_history.getD ""
    else
      SYSTEM_PROMPT
  [⟨"system", system_content, none, none⟩, ⟨"user", query, none, none⟩]

/-- Embeds `AIGenerator._build_api_params`: the `tools` and `tool_choice` keys are
added only when `round_num == 0 and tools` (Python truthiness). -/
def build_api_params (messages : List Message) (tools : Option (List ToolSchema))
    (round_num : Nat) : ApiParams :=
  if round_num = 0 ∧ pyTruthyList tools = true then
    { messages := messages, tools := tools, tool_choice := some "auto" }
  else
    { messages := messages, tools := none, tool_choice := none }

/-- Embeds `AIGenerator._should_terminate`: the four sequential checks, in source
order.  `max_rounds` is a Python `int`, hence `Int` (it may be zero or
negative); `round_num` starts at 0 and only increments, hence `Nat`. -/
def should_terminate {V : Type} (response : ModelResponse) (round_num : Nat)
    (max_rounds : Int) (tool_manager : Option (ToolManager V)) : Bool :=
  if (round_num : Int) ≥ max_rounds then true
  else if response.finish_reason ≠ "tool_calls" then true
  else if tool_manager.isNone then true
  else if response.tool_calls.isEmpty then true
  else false

/-- Embeds `AIGenerator._parse_tool_args`: try `json.loads`; on `JSONDecodeError`
or `TypeError` fall back to `eval` on the same string.  An `.error` result
is an exception escaping `_parse_tool_args` (only `eval` can produce one). -/
def parse_tool_args {V : Type} (jsonLoads : String → JsonResult V)
    (pyEval : String → Except String V) (arguments_str : String) : Except String V :=
  match jsonLoads arguments_str with
  | .ok v => .ok v
  | .decodeError => pyEval arguments_str
  | .typeError => pyEval arguments_str

/-- Embeds `AIGenerator._execute_single_tool`: parse the arguments, then call
`tool_manager.execute_tool`; any exception in either step is caught and
turned into the error string `"工具执行失败: <name> - <msg>"`.  When
`tool_manager` is `None` the attribute access itself raises (an
`AttributeError`, caught by the same handler); this branch is unreachable
from the orchestrator because `_should_terminate` fires first. -/
def execute_single_tool {V : Type} (env : Env V) (tool_manager : Option (ToolManager V))
    (tc : ToolCall) : String :=
  match parse_tool_args env.jsonLoads env.pyEval tc.arguments with
  | .error e => "工具执行失败: " ++ tc.name ++ " - " ++ e
  | .ok args =>
    match tool_manager with
    | none => "工具执行失败: " ++ tc.name ++ " - NoneType object has no attribute execute_tool"
    | some tm =>
      match tm.executeTool tc.name args with
      | .ok result => result
      | .error e => "工具执行失败: " ++ tc.name ++ " - " ++ e

/-- Embeds `AIGenerator._execute_tools_and_update`: copy the transcript, append the
assistant message carrying the requested tool calls, then append one tool
message per requested call, in order, tagged with that call's id. -/
def execute_tools_and_update {V : Type} (env : Env V)
    (tool_manager : Option (ToolManager V)) (response : ModelResponse)
    (messages : List Message) : List Message :=
  let assistant_message : Message :=
    { role := "assistant", content := response.content,
      tool_calls := some response.tool_calls }
  (messages ++ [assistant_message]) ++
    response.tool_calls.map (fun tc =>
      { role := "tool", content := execute_single_tool env tool_manager tc,
        tool_call_id := some tc.id })

/-- Observable outcome of a run of `_execute_round`: the returned string,
plus an instrumentation trace — the request parameters of every API call
made (in order) and, for every round that executed tools, the batch of tool
calls it executed.  The source function returns only `result`; `calls` and
`toolBatches` record what it did along the way. -/
structure RunResult where
  result : String
  calls : List ApiParams
  toolBatches : List (List ToolCall)
  deriving Repr, DecidableEq, Inhabited

/-- Embeds `AIGenerator._execute_round`: build the round's parameters, make the API
call (an exception becomes the `"API调用错误: …"` string), test
`_should_terminate` before any tool work, otherwise execute the tools and
recurse with `tools=None` and `round_num + 1`.  The `try` around
`_execute_tools_and_update` in the source cannot fire: every per-tool
exception is already caught inside `_execute_single_tool`, so the embedded
function is total there. -/
def execute_round {V : Type} (env : Env V) (tool_manager : Option (ToolManager V))
    (messages : List Message) (tools : Option (List ToolSchema))
    (round_num : Nat) (max_rounds : Int) : RunResult :=
  let api_params := build_api_params messages tools round_num
  match env.api api_params with
  | .error e =>
    { result := "API调用错误: " ++ e, calls := [api_params], toolBatches := [] }
  | .ok response =>
    if h : should_terminate response round_num max_rounds tool_manager then
      { result := response.content, calls := [api_params], toolBatches := [] }
    else
      let updated_messages := execute_tools_and_update env tool_manager response messages
      let rest := execute_round env tool_manager updated_messages none
        (round_num + 1) max_rounds
      { result := rest.result, calls := api_params :: rest.calls,
        toolBatches := response.tool_calls :: rest.toolBatches }
termination_by (max_rounds - round_num).toNat
decreasing_by
  simp only [should_terminate] at h
  by_cases hc : (round_num : Int) ≥ max_rounds
  · rw [if_pos hc] at h
    simp at h
  · omega

/-- Embeds `AIGenerator.generate_response`: build the initial transcript and start
the recursion at round 0. -/
def generate_response {V : Type} (env : Env V) (query : String)
    (conversation_history : Option String) (tools : Option (List ToolSchema))
    (tool_manager : Option (ToolManager V)) (max_rounds : Int) : RunResult :=
  let messages := build_initial_messages query conversation_history
  execute_round env tool_manager messages tools 0 max_rounds

/-- A concrete tool call used to exercise the loop on closed inputs (shaped
like the one in `test_ai_generator.test_max_rounds_limit`). -/
def demoToolCall : ToolCall :=
  { id := "tool_call_id", name := "search_course_content", arguments := "query=test" }

/-- A concrete language model that requests one tool call on every response
and encodes the transcript length it saw into its text, so that distinct
rounds produce distinguishable responses. -/
def demoApi (p : ApiParams) : Except String ModelResponse :=
  .ok { finish_reason := "tool_calls",
        content := "resp" ++ toString p.messages.length,
        tool_calls := [demoToolCall] }

/-- A concrete environment whose model always wants tools and whose JSON
parser always succeeds. -/
def demoEnv : Env Unit :=
  { jsonLoads := fun _ => .ok (), pyEval := fun _ => .ok (), api := demoApi }

/-- A concrete tool manager whose tools always succeed. -/
def demoTM : ToolManager Unit :=
  { executeTool := fun _ _ => .ok "Some result" }

/-- A concrete tool manager whose tools always raise. -/
def failTM : ToolManager Unit :=
  { executeTool := fun _ _ => .error "Tool error" }

/-- A concrete environment whose API call always raises (as in
`test_ai_generator.test_api_error_handling`). -/
def failEnv : Env Unit :=
  { jsonLoads := fun _ => .ok (), pyEval := fun _ => .ok (),
    api := fun _ => .error "API Error" }

/-- The model response the demo model gives to a transcript of `k` messages. -/
def demoResponse (k : Nat) : ModelResponse :=
  { finish_reason := "tool_calls", content := "resp" ++ toString k,
    tool_calls := [demoToolCall] }

/-- The initial transcript of the demo run. -/
def demoMessages0 : List Message := build_initial_messages "q" none

/-- The demo transcript after the first tool-execution round. -/
def demoMessages1 : List Message :=
  execute_tools_and_update demoEnv (some demoTM) (demoResponse 2) demoMessages0

/-- The demo transcript after the second tool-execution round. -/
def demoMessages2 : List Message :=
  execute_tools_and_update demoEnv (some demoTM) (demoResponse 4) demoMessages1

/-- Modelled from the spec: `backend/vector_store.py` is not under `src/`
(only its test `test_vector_store.test_build_filter` is), so the Filter
Builder is taken from spec section 4.4 — either no filter, a course-title
constraint, a lesson-number constraint, or the conjunction of both. -/
inductive Filter where
  | empty : Filter
  | courseOnly (course_title : String) : Filter
  | lessonOnly (lesson_number : Int) : Filter
  | conj (course_title : String) (lesson_number : Int) : Filter
  deriving Repr, DecidableEq

/-- Modelled from the spec: the Filter Builder of section 4.4,
`(None, None) -> no filter`, `(course, None) -> course-only`,
`(None, lesson) -> lesson-only`, `(course, lesson) -> conjunction`.
It is a plain total function of the optional pair. -/
def build_filter (course_title : Option String) (lesson_number : Option Int) : Filter :=
  match course_title, lesson_number with
  | none, none => .empty
  | some c, none => .courseOnly c
  | none, some l => .lessonOnly l
  | some c, some l => .conj c l

/-- Modelled from the spec: one Conversation Turn of section 3, a
(user text, assistant text) pair (`backend/session_manager.py` is not under
`src/`; only its tests and callers are). -/
structure Turn where
  user : String
  assistant : String
  deriving Repr, DecidableEq, Inhabited

/-- Modelled from the spec: `append` of the Session History (sections 3 and
4.5) — add the new Turn at the young end; when the cap is exceeded evict
from the old end (FIFO) until at most `cap` Turns remain. -/
def append_turn (cap : Nat) (turns : List Turn) (t : Turn) : List Turn :=
  let ts := turns ++ [t]
  if cap < ts.length then ts.drop (ts.length - cap) else ts

/-- The session store contents after appending a whole sequence of Turns,
oldest first, to a fresh session. -/
def run_appends (cap : Nat) (ts : List Turn) : List Turn :=
  ts.foldl (append_turn cap) []

end RagChatbot

namespace RagChatbot

/-- Unfolding lemma: the API call raised. -/
theorem execute_round_api_error {V : Type} (env : Env V) (tm : Option (ToolManager V))
    (messages : List Message) (tools : Option (List ToolSchema)) (n : Nat) (m : Int)
    (e : String) (h : env.api (build_api_params messages tools n) = .error e) :
    execute_round env tm messages tools n m =
      { result := "API调用错误: " ++ e,
        calls := [build_api_params messages tools n], toolBatches := [] } := by
  unfold execute_round
  simp only [h]

/-- Unfolding lemma: the API call succeeded and the round terminates. -/
theorem execute_round_terminate {V : Type} (env : Env V) (tm : Option (ToolManager V))
    (messages : List Message) (tools : Option (List ToolSchema)) (n : Nat) (m : Int)
    (response : ModelResponse)
    (hok : env.api (build_api_params messages tools n) = .ok response)
    (hterm : should_terminate response n m tm = true) :
    execute_round env tm messages tools n m =
      { result := response.content,
        calls := [build_api_params messages tools n], toolBatches := [] } := by
  unfold execute_round
  simp only [hok]
  rw [dif_pos hterm]

/-- Unfolding lemma: the API call succeeded and the round continues. -/
theorem execute_round_continue {V : Type} (env : Env V) (tm : Option (ToolManager V))
    (messages : List Message) (tools : Option (List ToolSchema)) (n : Nat) (m : Int)
    (response : ModelResponse)
    (hok : env.api (build_api_params messages tools n) = .ok response)
    (hterm : should_terminate response n m tm = false) :
    execute_round env tm messages tools n m =
      { result := (execute_round env tm
          (execute_tools_and_update env tm response messages) none (n + 1) m).result,
        calls := build_api_params messages tools n ::
          (execute_round env tm
            (execute_tools_and_update env tm response messages) none (n + 1) m).calls,
        toolBatches := response.tool_calls ::
          (execute_round env tm
            (execute_tools_and_update env tm response messages) none (n + 1) m).toolBatches } := by
  conv_lhs => unfold execute_round
  simp only [hok]
  rw [dif_neg (by simp [hterm])]

/-- Per-round accounting: a run starting at round `n` makes at most
`(max_rounds - n).toNat + 1` API calls and executes tools in at most
`(max_rounds - n).toNat` rounds. -/
theorem execute_round_length_bounds {V : Type} (env : Env V) (tm : Option (ToolManager V))
    (messages : List Message) (tools : Option (List ToolSchema)) (n : Nat) (m : Int) :
    (execute_round env tm messages tools n m).calls.length ≤ (m - n).toNat + 1 ∧
    (execute_round env tm messages tools n m).toolBatches.length ≤ (m - n).toNat := by
  induction messages, tools, n, m using execute_round.induct env tm with
  | case1 messages tools n m api_params e herr =>
      unfold execute_round
      simp only [herr]
      simp
  | case2 messages tools n m api_params response hok hterm =>
      unfold execute_round
      simp only [hok]
      rw [dif_pos hterm]
      simp
  | case3 messages tools n m api_params response hok hterm updated ih =>
      unfold execute_round
      simp only [hok]
      rw [dif_neg hterm]
      have hlt : (n : Int) < m := by
        have hf : should_terminate response n m tm = false := by
          simpa using hterm
        by_contra hc
        rw [show should_terminate response n m tm =
            true from by rw [should_terminate, if_pos (by omega)]] at hf
        exact Bool.true_eq_false.mp hf
      obtain ⟨ih1, ih2⟩ := ih
      have he : execute_round env tm (execute_tools_and_update env tm response messages)
          none (n + 1) m = execute_round env tm updated none (n + 1) m := rfl
      rw [he]
      refine ⟨?_, ?_⟩ <;> simp only [List.length_cons] <;> omega

/-- The request of the first API call of a run carries exactly the `tools`
argument the run was started with; every later request carries no tools and
no tool choice (the recursion passes `None`). -/
theorem execute_round_calls_spec {V : Type} (env : Env V) (tm : Option (ToolManager V))
    (messages : List Message) (tools : Option (List ToolSchema)) (n : Nat) (m : Int) :
    (execute_round env tm messages tools n m).calls.head? =
      some (build_api_params messages tools n) ∧
    ∀ p ∈ (execute_round env tm messages tools n m).calls.tail,
      p.tools = none ∧ p.tool_choice = none := by
  induction messages, tools, n, m using execute_round.induct env tm with
  | case1 messages tools n m api_params e herr =>
      rw [execute_round_api_error env tm messages tools n m e herr]
      simp
  | case2 messages tools n m api_params response hok hterm =>
      rw [execute_round_terminate env tm messages tools n m response hok hterm]
      simp
  | case3 messages tools n m api_params response hok hterm updated ih =>
      rw [execute_round_continue env tm messages tools n m response hok (by simpa using hterm)]
      refine ⟨rfl, ?_⟩
      intro p hp
      simp only [List.tail_cons] at hp
      have he : execute_round env tm (execute_tools_and_update env tm response messages)
          none (n + 1) m = execute_round env tm updated none (n + 1) m := rfl
      rw [he] at hp
      obtain ⟨ih1, ih2⟩ := ih
      rcases hc : (execute_round env tm updated none (n + 1) m).calls with _ | ⟨a, t⟩
      · rw [hc] at hp
        simp at hp
      · rw [hc] at hp ih1
        simp only [List.head?_cons, Option.some_inj] at ih1
        rcases List.mem_cons.mp hp with hpa | hpt
        · subst hpa
          rw [ih1]
          constructor <;> rw [build_api_params, if_neg (by simp [pyTruthyList])]
        · exact ih2 p (by rw [hc]; simpa using hpt)

/-- Concrete evaluation of the scenario of spec section 8: an
always-wants-tools model with `max_rounds = 2` runs exactly three API calls
and two tool-execution rounds and returns the third response text. -/
theorem demo_run :
    generate_response demoEnv "q" none (some ["schema"]) (some demoTM) 2 =
      { result := "resp6",
        calls := [build_api_params demoMessages0 (some ["schema"]) 0,
                  build_api_params demoMessages1 none 1,
                  build_api_params demoMessages2 none 2],
        toolBatches := [[demoToolCall], [demoToolCall]] } := by
  have h0 := execute_round_continue demoEnv (some demoTM) demoMessages0 (some ["schema"]) 0 2
    (demoResponse 2) rfl (by decide)
  have h1 := execute_round_continue demoEnv (some demoTM) demoMessages1 none 1 2
    (demoResponse 4) rfl (by decide)
  have h2 := execute_round_terminate demoEnv (some demoTM) demoMessages2 none 2 2
    (demoResponse 6) rfl (by decide)
  have e1 : execute_tools_and_update demoEnv (some demoTM) (demoResponse 2) demoMessages0 =
      demoMessages1 := rfl
  have e2 : execute_tools_and_update demoEnv (some demoTM) (demoResponse 4) demoMessages1 =
      demoMessages2 := rfl
  show execute_round demoEnv (some demoTM) demoMessages0 (some ["schema"]) 0 2 = _
  rw [h0, e1, show (0 + 1 : Nat) = 1 from rfl, h1, e2, show (1 + 1 : Nat) = 2 from rfl, h2]
  rfl

/-- Running `append` over a whole sequence keeps only the suffix of the
most recent `cap` Turns: the FIFO invariant in closed form. -/
theorem foldl_append_turn (cap : Nat) (ts : List Turn) :
    ∀ acc : List Turn, acc.length ≤ cap →
      List.foldl (append_turn cap) acc ts =
        (acc ++ ts).drop ((acc ++ ts).length - cap) := by
  induction ts with
  | nil =>
      intro acc hacc
      simp [Nat.sub_eq_zero_of_le hacc]
  | cons t ts ih =>
      intro acc hacc
      have ha : append_turn cap acc t =
          if cap < (acc ++ [t]).length then
            (acc ++ [t]).drop ((acc ++ [t]).length - cap)
          else acc ++ [t] := rfl
      have hlen : (append_turn cap acc t).length ≤ cap := by
        rw [ha]
        split
        · rw [List.length_drop]
          simp only [List.length_append, List.length_cons, List.length_nil]
          omega
        · simp only [List.length_append, List.length_cons, List.length_nil] at *
          omega
      rw [List.foldl_cons, ih _ hlen, ha]
      by_cases hc : cap < (acc ++ [t]).length
      · rw [if_pos hc]
        rw [← List.drop_append_of_le_length
          (by omega : (acc ++ [t]).length - cap ≤ (acc ++ [t]).length)]
        rw [List.drop_drop]
        have harr : (acc ++ [t]) ++ ts = acc ++ t :: ts := by simp
        rw [harr]
        congr 1
        rw [List.length_drop]
        simp only [List.length_append, List.length_cons, List.length_nil] at *
        omega
      · rw [if_neg hc]
        have harr : (acc ++ [t]) ++ ts = acc ++ t :: ts := by simp
        rw [harr]

/-- C1 (counterexample): with `max_rounds = 2` and a model that requests a
tool call on every response, the orchestration loop makes 3 — not at most
2 — language-model API calls, so "at most max_rounds API calls in total"
is false as stated. -/
theorem claim_C1_counterexample :
    2 < (generate_response demoEnv "q" none (some ["schema"]) (some demoTM) 2).calls.length := by
  rw [demo_run]
  decide

/-- C1 (amended): for every query the orchestration loop makes at most
`max_rounds + 1` language-model API calls in total — equivalently, at most
`max_rounds` tool-execution rounds — regardless of how many tool calls the
model requests in each response. -/
theorem claim_C1 {V : Type} (env : Env V) (query : String)
    (conversation_history : Option String) (tools : Option (List ToolSchema))
    (tool_manager : Option (ToolManager V)) (max_rounds : Int) :
    (generate_response env query conversation_history tools tool_manager
        max_rounds).calls.length ≤ max_rounds.toNat + 1 ∧
    (generate_response env query conversation_history tools tool_manager
        max_rounds).toolBatches.length ≤ max_rounds.toNat := by
  have h := execute_round_length_bounds env tool_manager
    (build_initial_messages query conversation_history) tools 0 max_rounds
  obtain ⟨h1, h2⟩ := h
  constructor
  · show (execute_round env tool_manager
        (build_initial_messages query conversation_history) tools 0
        max_rounds).calls.length ≤ max_rounds.toNat + 1
    omega
  · show (execute_round env tool_manager
        (build_initial_messages query conversation_history) tools 0
        max_rounds).toolBatches.length ≤ max_rounds.toNat
    omega

/-- C9: for every integer `max_rounds` (including 0 and negative values)
and every environment, the recursive round execution terminates —
`generate_response` is a total function — after at least one and at most
`max(max_rounds, 0) + 1` model API calls. -/
theorem claim_C9 {V : Type} (env : Env V) (query : String)
    (conversation_history : Option String) (tools : Option (List ToolSchema))
    (tool_manager : Option (ToolManager V)) (max_rounds : Int) :
    1 ≤ (generate_response env query conversation_history tools tool_manager
        max_rounds).calls.length ∧
    (generate_response env query conversation_history tools tool_manager
        max_rounds).calls.length ≤ (max max_rounds 0).toNat + 1 := by
  have hb := (execute_round_length_bounds env tool_manager
    (build_initial_messages query conversation_history) tools 0 max_rounds).1
  have hh := (execute_round_calls_spec env tool_manager
    (build_initial_messages query conversation_history) tools 0 max_rounds).1
  constructor
  · show 1 ≤ (execute_round env tool_manager
        (build_initial_messages query conversation_history) tools 0
        max_rounds).calls.length
    rcases hc : (execute_round env tool_manager
        (build_initial_messages query conversation_history) tools 0
        max_rounds).calls with _ | ⟨a, t⟩
    · rw [hc] at hh
      simp at hh
    · simp
  · show (execute_round env tool_manager
        (build_initial_messages query conversation_history) tools 0
        max_rounds).calls.length ≤ (max max_rounds 0).toNat + 1
    omega

/-- C2: after each model response and before any tool work, the round
terminates and returns that response's content iff the round index reached
`max_rounds`, or the stop reason is not "tool_calls", or no tool manager
was supplied, or the tool-call list is empty — otherwise it goes on to
execute exactly that response's tool calls; in particular, with a model
that requests tools on every response and `max_rounds = 2`, exactly 2
tool-execution rounds occur and the text of the 3rd model response is
returned. -/
theorem claim_C2 {V : Type} (env : Env V) (tm : Option (ToolManager V))
    (messages : List Message) (tools : Option (List ToolSchema)) (n : Nat) (m : Int)
    (response : ModelResponse)
    (hapi : env.api (build_api_params messages tools n) = .ok response) :
    (should_terminate response n m tm = true ↔
      ((n : Int) ≥ m ∨ response.finish_reason ≠ "tool_calls" ∨ tm = none ∨
        response.tool_calls = [])) ∧
    (should_terminate response n m tm = true →
      (execute_round env tm messages tools n m).result = response.content ∧
      (execute_round env tm messages tools n m).toolBatches = []) ∧
    (should_terminate response n m tm = false →
      (execute_round env tm messages tools n m).toolBatches.head? =
        some response.tool_calls) ∧
    ((generate_response demoEnv "q" none (some ["schema"]) (some demoTM)
        2).toolBatches.length = 2 ∧
      (generate_response demoEnv "q" none (some ["schema"]) (some demoTM)
        2).calls.length = 3 ∧
      demoEnv.api ((generate_response demoEnv "q" none (some ["schema"]) (some demoTM)
          2).calls.getD 2 default) =
        .ok { finish_reason := "tool_calls",
              content := (generate_response demoEnv "q" none (some ["schema"])
                (some demoTM) 2).result,
              tool_calls := [demoToolCall] }) := by
  refine ⟨?_, ?_, ?_, ?_⟩
  · rw [should_terminate]
    split_ifs with h1 h2 h3 h4 <;>
      simp_all [Option.isNone_iff_eq_none, List.isEmpty_iff]
  · intro ht
    rw [execute_round_terminate env tm messages tools n m response hapi ht]
    exact ⟨rfl, rfl⟩
  · intro hf
    rw [execute_round_continue env tm messages tools n m response hapi hf]
    rfl
  · rw [demo_run]
    exact ⟨rfl, rfl, rfl⟩

/-- C2 witness: the scenario at its concrete inputs. -/
theorem claim_C2_witness :
    (generate_response demoEnv "q" none (some ["schema"]) (some demoTM)
        2).toolBatches.length = 2 ∧
    (generate_response demoEnv "q" none (some ["schema"]) (some demoTM)
        2).calls.length = 3 ∧
    demoEnv.api ((generate_response demoEnv "q" none (some ["schema"]) (some demoTM)
        2).calls.getD 2 default) =
      .ok { finish_reason := "tool_calls",
            content := (generate_response demoEnv "q" none (some ["schema"])
              (some demoTM) 2).result,
            tool_calls := [demoToolCall] } :=
  (claim_C2 demoEnv (some demoTM) demoMessages0 (some ["schema"]) 0 2
    (demoResponse 2) rfl).2.2.2

/-- C3: the request parameters of the i-th API call of a query contain tool
schemas and a tool-choice entry iff `i = 0` and a non-empty tools list was
supplied to `generate_response`; every request with index at least 1
contains neither. -/
theorem claim_C3 {V : Type} (env : Env V) (tm : Option (ToolManager V))
    (query : String) (conversation_history : Option String)
    (tools : Option (List ToolSchema)) (m : Int) (i : Nat) (p : ApiParams)
    (hp : (generate_response env query conversation_history tools tm
        m).calls.get? i = some p) :
    p.tools = (if i = 0 ∧ pyTruthyList tools = true then tools else none) ∧
    p.tool_choice =
      (if i = 0 ∧ pyTruthyList tools = true then some "auto" else none) := by
  obtain ⟨h1, h2⟩ := execute_round_calls_spec env tm
    (build_initial_messages query conversation_history) tools 0 m
  have hp' : (execute_round env tm
      (build_initial_messages query conversation_history) tools 0
      m).calls.get? i = some p := hp
  rcases hc : (execute_round env tm
      (build_initial_messages query conversation_history) tools 0
      m).calls with _ | ⟨a, t⟩
  · rw [hc] at hp'
    simp at hp'
  · rw [hc] at hp' h1 h2
    simp only [List.head?_cons, Option.some_inj] at h1
    simp only [List.tail_cons] at h2
    cases i with
    | zero =>
        simp only [List.get?_cons_zero, Option.some_inj] at hp'
        subst hp'
        rw [h1, build_api_params]
        by_cases hpt : pyTruthyList tools = true
        · rw [if_pos ⟨rfl, hpt⟩]
          simp [hpt]
        · rw [if_neg (by simp [hpt])]
          simp [hpt]
    | succ j =>
        simp only [List.get?_cons_succ] at hp'
        have hmem : p ∈ t := List.get?_mem hp'
        obtain ⟨hto, htc⟩ := h2 p hmem
        rw [hto, htc]
        constructor <;> rw [if_neg (by simp)]

/-- C3 witness: in the demo run the 2nd API request carries no tools and no
tool choice. -/
theorem claim_C3_witness :
    (build_api_params demoMessages1 none 1).tools = none ∧
    (build_api_params demoMessages1 none 1).tool_choice = none := by
  have hp : (generate_response demoEnv "q" none (some ["schema"]) (some demoTM)
      2).calls.get? 1 = some (build_api_params demoMessages1 none 1) := by
    rw [demo_run]
    rfl
  have h := claim_C3 demoEnv (some demoTM) "q" none (some ["schema"]) 2 1
    (build_api_params demoMessages1 none 1) hp
  simpa using h

/-- C4: when a round executes tools, the transcript is extended by the
assistant message carrying the requested calls, followed by exactly one
tool-result message per requested call, in the order given, tagged with
that call's identifier; a single tool's exception is substituted by an
error string as that tool's result, and the remaining calls and the next
round still proceed. -/
theorem claim_C4 {V : Type} (env : Env V) (tm : ToolManager V)
    (response : ModelResponse) (messages : List Message) :
    ((execute_tools_and_update env (some tm) response messages).length =
        messages.length + 1 + response.tool_calls.length) ∧
    ((execute_tools_and_update env (some tm) response messages).take
        messages.length = messages) ∧
    ((execute_tools_and_update env (some tm) response messages).get?
        messages.length =
      some { role := "assistant", content := response.content,
             tool_calls := some response.tool_calls }) ∧
    (∀ i, (execute_tools_and_update env (some tm) response messages).get?
        (messages.length + 1 + i) =
      (response.tool_calls.get? i).map (fun tc =>
        { role := "tool", content := execute_single_tool env (some tm) tc,
          tool_call_id := some tc.id })) ∧
    (∀ tc args e,
      parse_tool_args env.jsonLoads env.pyEval tc.arguments = .ok args →
      tm.executeTool tc.name args = .error e →
      execute_single_tool env (some tm) tc =
        "工具执行失败: " ++ tc.name ++ " - " ++ e) ∧
    (∀ tools n m, env.api (build_api_params messages tools n) = .ok response →
      should_terminate response n m (some tm) = false →
      (execute_round env (some tm) messages tools n m).calls =
        build_api_params messages tools n ::
          (execute_round env (some tm)
            (execute_tools_and_update env (some tm) response messages) none
            (n + 1) m).calls) := by
  refine ⟨?_, ?_, ?_, ?_, ?_, ?_⟩
  · simp [execute_tools_and_update]
    omega
  · rw [execute_tools_and_update, List.append_assoc]
    exact List.take_left messages _
  · rw [execute_tools_and_update, List.append_assoc]
    rw [List.get?_append_right (Nat.le_refl _)]
    simp
  · intro i
    rw [execute_tools_and_update, List.append_assoc]
    rw [List.get?_append_right (by omega : messages.length ≤ messages.length + 1 + i)]
    have h1 : messages.length + 1 + i - messages.length = i + 1 := by omega
    rw [h1, List.singleton_append, List.get?_cons_succ, List.get?_map]
  · intro tc args e hp he
    simp [execute_single_tool, hp, he]
  · intro tools n m hok hterm
    rw [execute_round_continue env (some tm) messages tools n m response hok hterm]

/-- C4 witness: a tool whose execution raises has the error string
substituted as its result. -/
theorem claim_C4_witness :
    execute_single_tool demoEnv (some failTM) demoToolCall =
      "工具执行失败: " ++ demoToolCall.name ++ " - " ++ "Tool error" :=
  (claim_C4 demoEnv failTM (demoResponse 2) []).2.2.2.2.1 demoToolCall () "Tool error"
    rfl rfl

/-- C5: if the API call of a round raises, the orchestrator returns the
user-facing string "API调用错误: <message>" instead of propagating the
exception, and no tools are executed for that response. -/
theorem claim_C5 {V : Type} (env : Env V) (tm : Option (ToolManager V))
    (messages : List Message) (tools : Option (List ToolSchema)) (n : Nat) (m : Int)
    (e : String) (h : env.api (build_api_params messages tools n) = .error e) :
    (execute_round env tm messages tools n m).result = "API调用错误: " ++ e ∧
    (execute_round env tm messages tools n m).toolBatches = [] := by
  rw [execute_round_api_error env tm messages tools n m e h]
  exact ⟨rfl, rfl⟩

/-- C5 witness: an environment whose API call always raises "API Error". -/
theorem claim_C5_witness :
    (generate_response failEnv "Test query" none (some ["schema"]) (some demoTM)
        2).result = "API调用错误: " ++ "API Error" ∧
    (generate_response failEnv "Test query" none (some ["schema"]) (some demoTM)
        2).toolBatches = [] :=
  claim_C5 failEnv (some demoTM) (build_initial_messages "Test query" none)
    (some ["schema"]) 0 2 "API Error" rfl

/-- C6: tool-call argument strings are first parsed as JSON; exactly when
JSON parsing fails with a JSONDecodeError or a TypeError, the argument
string is instead evaluated as Python code and that value is returned. -/
theorem claim_C6 {V : Type} (jsonLoads : String → JsonResult V)
    (pyEval : String → Except String V) (s : String) :
    (∀ v, jsonLoads s = .ok v → parse_tool_args jsonLoads pyEval s = .ok v) ∧
    ((jsonLoads s = .decodeError ∨ jsonLoads s = .typeError) →
      parse_tool_args jsonLoads pyEval s = pyEval s) := by
  constructor
  · intro v h
    simp [parse_tool_args, h]
  · rintro (h | h) <;> simp [parse_tool_args, h]

/-- C6 witness: a failing JSON parse falls back to the evaluator's value. -/
theorem claim_C6_witness :
    parse_tool_args (fun _ => (JsonResult.decodeError : JsonResult Unit))
      (fun _ => Except.ok ()) "not json" = Except.ok () :=
  (claim_C6 (fun _ => (JsonResult.decodeError : JsonResult Unit))
    (fun _ => Except.ok ()) "not json").2 (Or.inl rfl)

/-- C7: the Filter Builder is a pure total function of the optional
(course, lesson) pair with exactly four cases — no filter, a course-only
constraint, a lesson-only constraint, or the conjunction of both. -/
theorem claim_C7 (course_title : Option String) (lesson_number : Option Int) :
    build_filter none none = Filter.empty ∧
    (∀ t, build_filter (some t) none = Filter.courseOnly t) ∧
    (∀ l, build_filter none (some l) = Filter.lessonOnly l) ∧
    (∀ t l, build_filter (some t) (some l) = Filter.conj t l) ∧
    (build_filter course_title lesson_number = Filter.empty ↔
      course_title = none ∧ lesson_number = none) ∧
    ((∃ t, build_filter course_title lesson_number = Filter.courseOnly t) ↔
      course_title ≠ none ∧ lesson_number = none) ∧
    ((∃ l, build_filter course_title lesson_number = Filter.lessonOnly l) ↔
      course_title = none ∧ lesson_number ≠ none) ∧
    ((∃ t l, build_filter course_title lesson_number = Filter.conj t l) ↔
      course_title ≠ none ∧ lesson_number ≠ none) := by
  rcases course_title with _ | t <;> rcases lesson_number with _ | l <;>
    simp [build_filter]

/-- C8: after any sequence of appended exchanges the stored turn count
never exceeds the cap, and eviction is FIFO — the store holds exactly the
most recent `cap` exchanges (the suffix of the appended sequence). -/
theorem claim_C8 (cap : Nat) (turns : List Turn) :
    (run_appends cap turns).length ≤ cap ∧
    run_appends cap turns = turns.drop (turns.length - cap) := by
  have h : List.foldl (append_turn cap) [] turns =
      turns.drop (turns.length - cap) := by
    simpa using foldl_append_turn cap turns [] (by simp)
  rw [run_appends, h]
  refine ⟨?_, rfl⟩
  rw [List.length_drop]
  omega

end RagChatbot
